import Mathlib

/-!
# Verification of the acpi-system crate core

A shallow embedding, in Lean, of the core of the `acpi-system` Rust crate
(`src/hardware.rs`, `src/event.rs`, `src/sleep.rs`, `src/lib.rs`,
`src/error.rs`), together with theorems settling the behavioural claims
made about it.

Modelling conventions:
* Machine integers (`u8`, `u16`, `u32`, `u64`) are modelled as `Nat` with
  explicit truncation (`% 2 ^ w`, `&&& (2 ^ w - 1)`) at the points where the
  source performs a cast.
* Fallible Rust code (`Result`) is modelled by the `Outcome` type below,
  which additionally distinguishes a Rust panic (`panic!`, `todo!`,
  `unimplemented!`, `.unwrap()` on a failure) and divergence (an
  unconditionally looping construct such as the `hlt` loop).
* Hardware interaction is modelled as a trace of `Effect`s: each embedded
  stateful function returns an `Outcome` paired with the ordered list of
  effects it performed.  `regRead`/`regWrite` effects record a call of
  `read_address`/`write_address` with its generic-address argument (the
  register-layer observable); `ioRead`/`ioWrite`/`memRead` record the
  host-platform port and memory accesses actually issued, with the width of
  the host call that was invoked.
* Host reads are given by an environment `Env` of pure functions; writes
  only appear in the trace (none of the verified claims require
  read-after-write behaviour).
-/

set_option linter.unusedVariables false

namespace AcpiSys

/-- Address spaces of an ACPI Generic Address Structure (from the `acpi`
crate).  Spaces other than system memory and system I/O are collapsed into
`otherSpace`, which the source rejects with `unimplemented!()`. -/
inductive AddressSpace where
  | systemMemory
  | systemIo
  | otherSpace (tag : Nat)
deriving DecidableEq

/-- The `AccessSize` field of a Generic Address Structure. -/
inductive AccessSize where
  | undefined
  | byteAccess
  | wordAccess
  | dwordAccess
  | qwordAccess
deriving DecidableEq

/-- ACPI Generic Address Structure (field for field as in the `acpi` crate:
`address_space`, `bit_width : u8`, `bit_offset : u8`, `access_size`,
`address : u64`). -/
structure GenericAddress where
  address_space : AddressSpace
  bit_width : Nat
  bit_offset : Nat
  access_size : AccessSize
  address : Nat
deriving DecidableEq

/-- Stand-in for the external `acpi` crate's error type (only ever passed
through by the code under verification). -/
structure AcpiError where
  tag : Nat
deriving DecidableEq

/-- Stand-in for the `aml` crate's error type.  The source only ever
distinguishes `ValueDoesNotExist` from every other variant, so the model
keeps that variant and collapses the rest. -/
inductive AmlError where
  | valueDoesNotExist (path : String)
  | otherError (tag : Nat)
deriving DecidableEq

/-- `AcpiSystemError` from `src/error.rs`, variant for variant. -/
inductive AcpiSystemError where
  | acpiError (e : AcpiError)
  | amlError (e : AmlError)
  | enableTimeout
  | modeTransitionNotSupported
  | invalidSleepValues (a b : Nat)
  | invalidSleepMethod (name : String)
  | missingSleepMethod (name : String)
deriving DecidableEq

/-- Result of running an embedded Rust computation: normal return, error
return, panic (`todo!()` / `unimplemented!()` / `panic!` / failed
`unwrap`), or divergence (an unconditional infinite loop). -/
inductive Outcome (α : Type) where
  | ok (value : α)
  | err (e : AcpiSystemError)
  | panicked (msg : String)
  | diverges
deriving DecidableEq

/-- One observable hardware / interpreter interaction. -/
inductive Effect where
  | regRead (reg : GenericAddress)
  | regWrite (reg : GenericAddress) (value : Nat)
  | ioRead (width : Nat) (port : Nat)
  | ioWrite (width : Nat) (port : Nat) (value : Nat)
  | memRead (width : Nat) (address : Nat)
  | cacheFlush
  | invokeMethod (path : String) (args : List Nat)
deriving DecidableEq

/-- An effectful computation: its outcome plus the ordered effect trace. -/
abbrev EffM (α : Type) := Outcome α × List Effect

/-- Sequencing of effectful computations; traces concatenate, and error /
panic / divergence outcomes short-circuit. -/
def obind {α β : Type} : EffM α → (α → EffM β) → EffM β
  | (.ok a, tr), f => ((f a).1, tr ++ (f a).2)
  | (.err e, tr), _ => (.err e, tr)
  | (.panicked m, tr), _ => (.panicked m, tr)
  | (.diverges, tr), _ => (.diverges, tr)

@[simp] theorem obind_ok {α β : Type} (a : α) (tr : List Effect) (f : α → EffM β) :
    obind (.ok a, tr) f = ((f a).1, tr ++ (f a).2) := rfl

@[simp] theorem obind_err {α β : Type} (e : AcpiSystemError) (tr : List Effect) (f : α → EffM β) :
    obind (.err e, tr) f = (.err e, tr) := rfl

@[simp] theorem obind_panicked {α β : Type} (m : String) (tr : List Effect) (f : α → EffM β) :
    obind (.panicked m, tr) f = (.panicked m, tr) := rfl

@[simp] theorem obind_diverges {α β : Type} (tr : List Effect) (f : α → EffM β) :
    obind ((.diverges : Outcome α), tr) f = (.diverges, tr) := rfl

theorem obind_fst_ok {α β : Type} {x : EffM α} {f : α → EffM β} {b : β}
    (h : (obind x f).1 = .ok b) : ∃ a, x.1 = .ok a ∧ (f a).1 = .ok b := by
  obtain ⟨out, tr⟩ := x
  cases out with
  | ok a => exact ⟨a, rfl, by simpa using h⟩
  | err e => simp [obind] at h
  | panicked m => simp [obind] at h
  | diverges => simp [obind] at h

/-! ## Bit manipulation (the `bit_field` crate)

`get_bits`, `set_bits` and `set_bit` on a `w`-bit unsigned integer.  The
crate asserts that the range fits in the integer's width and that the
spliced value fits in the range; every call site verified below satisfies
those preconditions (they are carried as hypotheses where a theorem
quantifies over the spliced value), so the model realises `set_bits` as the
masked splice. -/

/-- `value.get_bits(lo..hi)`. -/
def get_bits (value lo hi : Nat) : Nat := (value >>> lo) &&& (2 ^ (hi - lo) - 1)

/-- `value.set_bits(lo..hi, v)` on a `w`-bit integer. -/
def set_bits (w value lo hi v : Nat) : Nat :=
  (value &&& ((2 ^ w - 1) ^^^ ((2 ^ (hi - lo) - 1) <<< lo))) ||| ((v &&& (2 ^ (hi - lo) - 1)) <<< lo)

/-- `value.set_bit(pos, b)` on a `w`-bit integer. -/
def set_bit (w value pos : Nat) (b : Bool) : Nat :=
  if b then value ||| (1 <<< pos) else value &&& ((2 ^ w - 1) ^^^ (1 <<< pos))

/-- `u8::is_power_of_two` etc. (`0` is not a power of two). -/
def is_power_of_two (n : Nat) : Bool := n != 0 && (n &&& (n - 1)) == 0

/-- `next_power_of_two` of the integer types: the least power of two that is
`≥ n`, with `next_power_of_two 0 = 1`. -/
def next_power_of_two (n : Nat) : Nat :=
  if n ≤ 1 then 1 else 2 ^ (Nat.log2 (n - 1) + 1)

/-- The `while address % width != 0 { width >>= 1 }` loop inside
`access_bit_width` (src/hardware.rs). -/
def align_width (address : Nat) (width : Nat) : Nat :=
  if h : width = 0 then 0
  else if address % width = 0 then width
  else align_width address (width / 2)
termination_by width
decreasing_by simp_wf; omega

/-- `access_bit_width` from src/hardware.rs: selects the width, in bits, of
the individual host accesses used for a generic address. -/
def access_bit_width (register : GenericAddress) (address : Nat) (maximum_width : Nat) : Nat :=
  let abw :=
    if register.bit_offset = 0 ∧ register.bit_width ≠ 0 ∧
        is_power_of_two register.bit_width = true ∧ register.bit_width % 8 = 0 then
      register.bit_width
    else if register.access_size ≠ .undefined then
      match register.access_size with
      | .byteAccess => 8
      | .wordAccess => 16
      | .dwordAccess => 32
      | .qwordAccess => 64
      | .undefined => 0   -- unreachable: the guard above excludes `Undefined`
    else
      let width := next_power_of_two (register.bit_offset + register.bit_width)
      if width < 8 then 8 else align_width address width
  let maximum_width := if register.address_space = .systemIo then 32 else maximum_width
  min abw maximum_width

/-! ## Host platform environment and the raw address-space dispatch -/

/-- The read half of the host `Handler` trait (src/lib.rs): pure functions
giving the value returned by each host read.  Results are truncated to the
host function's return type at the call site. -/
structure Env where
  io_read_u8 : Nat → Nat
  io_read_u16 : Nat → Nat
  io_read_u32 : Nat → Nat
  mem_read_u8 : Nat → Nat
  mem_read_u16 : Nat → Nat
  mem_read_u32 : Nat → Nat
  mem_read_u64 : Nat → Nat

/-- `read_address_space` from src/hardware.rs.  Note the SystemIo arm: the
source routes width 16 to `io_read_u32` and width 32 to `io_read_u16`
(the swapped dispatch), and converts the address to `u16` with
`try_into().unwrap()` before matching on the width. -/
def read_address_space (env : Env) (space : AddressSpace) (address : Nat) (width : Nat) :
    EffM Nat :=
  match space with
  | .systemMemory =>
    match width with
    | 8 => (.ok (env.mem_read_u8 address % 2 ^ 8), [.memRead 8 address])
    | 16 => (.ok (env.mem_read_u16 address % 2 ^ 16), [.memRead 16 address])
    | 32 => (.ok (env.mem_read_u32 address % 2 ^ 32), [.memRead 32 address])
    | 64 => (.ok (env.mem_read_u64 address % 2 ^ 64), [.memRead 64 address])
    | _ => (.panicked "unimplemented", [])
  | .systemIo =>
    if address < 2 ^ 16 then
      match width with
      | 8 => (.ok (env.io_read_u8 address % 2 ^ 8), [.ioRead 8 address])
      | 16 => (.ok (env.io_read_u32 address % 2 ^ 32), [.ioRead 32 address])
      | 32 => (.ok (env.io_read_u16 address % 2 ^ 16), [.ioRead 16 address])
      | _ => (.panicked "unimplemented", [])
    else (.panicked "try_into", [])
  | .otherSpace _ => (.panicked "unimplemented", [])

/-- `write_address_space` from src/hardware.rs: SystemMemory is `todo!()`,
SystemIo truncates the value to the port width and issues the port write. -/
def write_address_space (space : AddressSpace) (address : Nat) (width : Nat) (value : Nat) :
    EffM Unit :=
  match space with
  | .systemMemory => (.panicked "todo", [])
  | .systemIo =>
    if address < 2 ^ 16 then
      match width with
      | 8 => (.ok (), [.ioWrite 8 address (value % 2 ^ 8)])
      | 16 => (.ok (), [.ioWrite 16 address (value % 2 ^ 16)])
      | 32 => (.ok (), [.ioWrite 32 address (value % 2 ^ 32)])
      | _ => (.panicked "unimplemented", [])
    else (.panicked "try_into", [])
  | .otherSpace _ => (.panicked "unimplemented", [])

/-! ## The stride algorithm of `read_address` / `write_address`

The `while bit_width != 0` loops of src/hardware.rs, written with explicit
fuel.  Each iteration consumes one unit of fuel; since the access width is
always ≥ 1, `bit_width + 1` units suffice, and running out of fuel (which
would mean the Rust loop never terminates) is mapped to `Outcome.diverges`. -/

/-- Loop body of `read_address`: `bw`/`bo`/`idx`/`value` are the mutable
`bit_width`/`bit_offset`/`index`/`value` of the source. -/
def read_address_loop (env : Env) (space : AddressSpace) (address aw : Nat) :
    Nat → Nat → Nat → Nat → Nat → EffM Nat
  | 0, _, _, _, _ => (.diverges, [])
  | fuel + 1, bw, bo, idx, value =>
    if bw = 0 then (.ok value, [])
    else
      obind (if aw ≤ bo then ((.ok 0 : Outcome Nat), ([] : List Effect))
             else read_address_space env space (address + idx * aw / 8) aw) fun data =>
      let bo' := if aw ≤ bo then bo - aw else bo
      let bit_position := idx * aw
      let bits := get_bits data 0 aw
      -- `value.set_bits` on a `u64` asserts that the range end is ≤ 64
      if bit_position + aw ≤ 64 then
        let value' := set_bits 64 value bit_position (bit_position + aw) bits
        if aw < bw then read_address_loop env space address aw fuel (bw - aw) bo' (idx + 1) value'
        else (.ok value', [])
      else (.panicked "set_bits overflow", [])

/-- `read_address` from src/hardware.rs.  The leading `regRead` effect
records the call itself (the register-layer observable). -/
def read_address (env : Env) (reg : GenericAddress) : EffM Nat :=
  let address := reg.address
  let access_width := access_bit_width reg address 64
  let bit_width := reg.bit_width + reg.bit_offset
  let r := read_address_loop env reg.address_space address access_width
             (bit_width + 1) bit_width reg.bit_offset 0 0
  (r.1, .regRead reg :: r.2)

/-- Loop body of `write_address`. -/
def write_address_loop (space : AddressSpace) (address aw value : Nat) :
    Nat → Nat → Nat → Nat → EffM Unit
  | 0, _, _, _ => (.diverges, [])
  | fuel + 1, bw, bo, idx =>
    if bw = 0 then (.ok (), [])
    else
      let bit_position := idx * aw
      -- `value.get_bits` on a `u64` asserts that the range end is ≤ 64
      if bit_position + aw ≤ 64 then
        let bits := get_bits value bit_position (bit_position + aw)
        obind (if aw ≤ bo then ((.ok () : Outcome Unit), ([] : List Effect))
               else write_address_space space (address + idx * aw / 8) aw bits) fun _ =>
        let bo' := if aw ≤ bo then bo - aw else bo
        if aw < bw then write_address_loop space address aw value fuel (bw - aw) bo' (idx + 1)
        else (.ok (), [])
      else (.panicked "get_bits overflow", [])

/-- `write_address` from src/hardware.rs, with the leading `regWrite`
effect recording the call and its value argument. -/
def write_address (reg : GenericAddress) (value : Nat) : EffM Unit :=
  let address := reg.address
  let access_width := access_bit_width reg address 64
  let bit_width := reg.bit_width + reg.bit_offset
  let r := write_address_loop reg.address_space address access_width value
             (bit_width + 1) bit_width reg.bit_offset 0
  (r.1, .regWrite reg value :: r.2)

/-! ## AML interpreter model (the parts of the `aml` crate the source uses) -/

/-- AML value types the source inspects (`AmlType`). -/
inductive AmlType where
  | integer
  | package
  | otherType
deriving DecidableEq

/-- AML values: the source only distinguishes `Integer` and `Package`;
every other variant of the `aml` crate is collapsed into `otherValue`. -/
inductive AmlValue where
  | integer (n : Nat)
  | package (elements : List AmlValue)
  | otherValue (tag : Nat)

/-- `AmlValue::type_of`. -/
def type_of : AmlValue → AmlType
  | .integer _ => .integer
  | .package _ => .package
  | .otherValue _ => .otherType

/-- `AmlValue::as_integer` (only the `Integer` case is ever reached by the
source, which guards every call with a `type_of` check). -/
def as_integer : AmlValue → Option Nat
  | .integer n => some n
  | _ => none

/-- `matches!(err, AmlError::ValueDoesNotExist(_))`. -/
def is_value_does_not_exist : AmlError → Bool
  | .valueDoesNotExist _ => true
  | _ => false

/-- Association-list lookup used to model the AML namespace and the set of
invocable methods. -/
def find_value {α : Type} : List (String × α) → String → Option α
  | [], _ => none
  | (k, v) :: rest, key => if k = key then some v else find_value rest key

/-! ## The `AcpiSystem` state -/

/-- The PM1 status/enable address set cached from the FADT
(`Pm1Registers` of the `acpi` crate). -/
structure Pm1Registers where
  x_pm1a_status : GenericAddress
  x_pm1b_status : Option GenericAddress
  x_pm1a_enable : GenericAddress
  x_pm1b_enable : Option GenericAddress
deriving DecidableEq

/-- The parts of `AcpiSystem` (src/lib.rs) the verified code paths read:
the host environment, the cached PM1 address set, the FADT lookups of the
PM1 control blocks (each a `Result`, as in the `acpi` crate), the AML
namespace (path ↦ value) and the invocable AML methods (path ↦ result of
`invoke_method`; a path absent from the list yields
`AmlError::ValueDoesNotExist`, exactly the distinction the source makes). -/
structure Sys where
  env : Env
  pm1_registers : Pm1Registers
  pm1a_control_block : Except AcpiError GenericAddress
  pm1b_control_block : Except AcpiError (Option GenericAddress)
  namespace_objects : List (String × AmlValue)
  methods : List (String × Except AmlError AmlValue)

/-- `invoke_method` on the AML context: records the invocation (path and
integer arguments) as an effect and returns the configured result. -/
def invoke_method (sys : Sys) (path : String) (args : List Nat) :
    Except AmlError AmlValue × List Effect :=
  (match find_value sys.methods path with
   | some r => r
   | none => .error (.valueDoesNotExist path),
   [.invokeMethod path args])

/-! ## Register layer (src/hardware.rs) -/

/-- `PM1_STATUS_PRESERVED_BITS` (bit 11, BM_STS). -/
def PM1_STATUS_PRESERVED_BITS : Nat := 1 <<< 11

/-- The logical registers. -/
inductive AcpiRegister where
  | pm1Status
  | pm1Control
  | pm1Enable
deriving DecidableEq

/-- `AcpiBitRegister`: a single bit of a logical register. -/
structure AcpiBitRegister where
  parent : AcpiRegister
  position : Nat
deriving DecidableEq

/-- `AcpiBitRegister::get_from_raw`. -/
def bit_get_from_raw (r : AcpiBitRegister) (value : Nat) : Bool :=
  value.testBit r.position

/-- `AcpiBitRegister::set_raw` (on a `u32`). -/
def bit_set_raw (r : AcpiBitRegister) (raw : Nat) (value : Bool) : Nat :=
  set_bit 32 raw r.position value

/-- `AcpiBitRangeRegister::SLEEP_TYPE` is bits `10..13`; its `set_raw`
splices into that range of a `u32`. -/
def sleep_type_set_raw (raw : Nat) (value : Nat) : Nat :=
  set_bits 32 raw 10 13 value

def SLEEP_ENABLE_position : Nat := 13

/-- `read_register_pair`: read A, read B when present, OR the `u32`s. -/
def read_register_pair (env : Env) (reg_a : GenericAddress) (reg_b : Option GenericAddress) :
    EffM Nat :=
  obind (read_address env reg_a) fun value_a =>
  let value_a := value_a % 2 ^ 32
  match reg_b with
  | some reg_b =>
    obind (read_address env reg_b) fun value_b =>
    let value_b := value_b % 2 ^ 32
    (.ok (value_a ||| value_b), [])
  | none => (.ok (value_a ||| 0), [])

/-- `write_register_pair`: the same value to A and, when present, B. -/
def write_register_pair (reg_a : GenericAddress) (reg_b : Option GenericAddress) (value : Nat) :
    EffM Unit :=
  obind (write_address reg_a value) fun _ =>
  match reg_b with
  | some reg_b => write_address reg_b value
  | none => (.ok (), [])

/-- `read_register` from src/hardware.rs. -/
def read_register (sys : Sys) (register : AcpiRegister) : EffM Nat :=
  match register with
  | .pm1Status =>
    read_register_pair sys.env sys.pm1_registers.x_pm1a_status sys.pm1_registers.x_pm1b_status
  | .pm1Enable =>
    read_register_pair sys.env sys.pm1_registers.x_pm1a_enable sys.pm1_registers.x_pm1b_enable
  | .pm1Control =>
    match sys.pm1a_control_block with
    | .error e => (.err (.acpiError e), [])
    | .ok pm1a =>
      match sys.pm1b_control_block with
      | .error e => (.err (.acpiError e), [])
      | .ok pm1b => read_register_pair sys.env pm1a pm1b

/-- `write_register` from src/hardware.rs: Pm1Status strips the preserved
bit (bit 11) first; Pm1Control through this path is `unimplemented!()`. -/
def write_register (sys : Sys) (register : AcpiRegister) (value : Nat) : EffM Unit :=
  match register with
  | .pm1Status =>
    let value := value &&& ((2 ^ 32 - 1) ^^^ PM1_STATUS_PRESERVED_BITS)
    write_register_pair sys.pm1_registers.x_pm1a_status sys.pm1_registers.x_pm1b_status value
  | .pm1Enable =>
    write_register_pair sys.pm1_registers.x_pm1a_enable sys.pm1_registers.x_pm1b_enable value
  | .pm1Control => (.panicked "unimplemented", [])

/-- `write_pm1_control`: distinct values to the A and B control blocks. -/
def write_pm1_control (sys : Sys) (reg_a_value : Nat) (reg_b_value : Nat) : EffM Unit :=
  match sys.pm1a_control_block with
  | .error e => (.err (.acpiError e), [])
  | .ok pm1a =>
    match sys.pm1b_control_block with
    | .error e => (.err (.acpiError e), [])
    | .ok pm1b =>
      obind (write_address pm1a reg_a_value) fun _ =>
      match pm1b with
      | some pm1b => write_address pm1b reg_b_value
      | none => (.ok (), [])

/-! ## Event subsystem (src/event.rs) -/

def GPE_REGISTER_WIDTH : Nat := 8

/-- A fixed event: enable and status bit registers (the name and handler id
of the source play no role in the verified paths and are dropped from the
model's observables except for the name string). -/
structure FixedEvent where
  name : String
  enable_register : AcpiBitRegister
  status_register : AcpiBitRegister
deriving DecidableEq

def FixedEvent.TIMER : FixedEvent :=
  ⟨"Timer", ⟨.pm1Enable, 0⟩, ⟨.pm1Status, 0⟩⟩
def FixedEvent.GLOBAL_LOCK : FixedEvent :=
  ⟨"Global Lock", ⟨.pm1Enable, 5⟩, ⟨.pm1Status, 5⟩⟩
def FixedEvent.POWER_BUTTON : FixedEvent :=
  ⟨"Power Button", ⟨.pm1Enable, 8⟩, ⟨.pm1Status, 8⟩⟩
def FixedEvent.SLEEP_BUTTON : FixedEvent :=
  ⟨"Sleep Button", ⟨.pm1Enable, 9⟩, ⟨.pm1Status, 9⟩⟩
def FixedEvent.RTC : FixedEvent :=
  ⟨"RTC", ⟨.pm1Enable, 10⟩, ⟨.pm1Status, 10⟩⟩

def FixedEvent.LIST : List FixedEvent :=
  [FixedEvent.TIMER, FixedEvent.GLOBAL_LOCK, FixedEvent.POWER_BUTTON,
   FixedEvent.SLEEP_BUTTON, FixedEvent.RTC]

/-- The mask-accumulation loop of `clear_fixed_events`: for each listed
event whose status bit is set in `value`, set that bit in the accumulator. -/
def clear_fixed_events_mask (events : List FixedEvent) (value : Nat) (acc : Nat) : Nat :=
  match events with
  | [] => acc
  | event :: rest =>
    let acc := if bit_get_from_raw event.status_register value then
                 bit_set_raw event.status_register acc true
               else acc
    clear_fixed_events_mask rest value acc

/-- `clear_fixed_events` from src/event.rs: reads PM1 Status, accumulates
the per-event mask into `result` — and then writes back `value` (the raw
value read), not `result`; the accumulated mask is dead. -/
def clear_fixed_events (sys : Sys) : EffM Unit :=
  obind (read_register sys .pm1Status) fun value =>
  let result := clear_fixed_events_mask FixedEvent.LIST value 0
  write_register sys .pm1Status value

/-- `GpeRegisterInfo` from src/event.rs. -/
structure GpeRegisterInfo where
  base_gpe_number : Nat
  enable_register : GenericAddress
  status_register : GenericAddress
deriving DecidableEq

/-- `GpeEventInfo` from src/event.rs. -/
structure GpeEventInfo where
  gpe_number : Nat
  register_index : Nat
deriving DecidableEq

/-- `GpeBlock` from src/event.rs. -/
structure GpeBlock where
  register_info : List GpeRegisterInfo
  event_info : List GpeEventInfo
  gpe_count : Nat
deriving DecidableEq

/-- The `for i in 0..register_count` loop of `initialize_gpe_block`,
written as a structural recursion on the number of remaining registers
(`i` is the current register index, the second argument counts the
iterations still to run; the loop is entered with `i = 0` and
`register_count` iterations).  Each iteration contributes one register
info and eight event infos — in the source's push order — and performs the
enable-register write of `0x00` followed by the status-register write of
`0xFF`. -/
def initialize_gpe_block_loop (block_address : GenericAddress) (register_count : Nat)
    (block_base_number : Nat) : Nat → Nat → EffM (List GpeRegisterInfo × List GpeEventInfo)
  | _, 0 => (.ok ([], []), [])
  | i, n + 1 =>
    let base_gpe_number := block_base_number + i * GPE_REGISTER_WIDTH
    let status_register : GenericAddress :=
      ⟨block_address.address_space, GPE_REGISTER_WIDTH, 0, .undefined, block_address.address + i⟩
    let enable_register : GenericAddress :=
      ⟨block_address.address_space, GPE_REGISTER_WIDTH, 0, .undefined,
       block_address.address + i + register_count⟩
    let events := (List.range GPE_REGISTER_WIDTH).map fun j =>
      GpeEventInfo.mk (base_gpe_number + j) i
    obind (write_address enable_register 0x00) fun _ =>
    obind (write_address status_register 0xFF) fun _ =>
    obind (initialize_gpe_block_loop block_address register_count block_base_number (i + 1) n)
      fun rest =>
    (.ok (⟨base_gpe_number, enable_register, status_register⟩ :: rest.1, events ++ rest.2), [])

/-- `initialize_gpe_block` from src/event.rs. -/
def initialize_gpe_block (block_address : GenericAddress) (register_count : Nat)
    (block_base_number : Nat) : EffM GpeBlock :=
  let gpe_count := register_count * GPE_REGISTER_WIDTH
  obind (initialize_gpe_block_loop block_address register_count block_base_number 0 register_count)
    fun lists =>
  (.ok ⟨lists.1, lists.2, gpe_count⟩, [])

/-! ## Sleep engine (src/sleep.rs, src/lib.rs) -/

/-- `AcpiSleepState`. -/
inductive AcpiSleepState where
  | s0 | s1 | s2 | s3 | s4 | s5
deriving DecidableEq

def sleep_state_index : AcpiSleepState → Nat
  | .s0 => 0 | .s1 => 1 | .s2 => 2 | .s3 => 3 | .s4 => 4 | .s5 => 5

def SLEEP_STATE_NAMES : List String :=
  ["\\_S0_", "\\_S1_", "\\_S2_", "\\_S3_", "\\_S4_", "\\_S5_"]

def PATH_PREPARE_TO_SLEEP : String := "\\_PTS"

def PATH_SYSTEM_STATUS : String := "\\_SI._SST"

/-- `sleep_type_data` from src/sleep.rs.  Every failure path of the source
is a panic: `todo!()` for the (unreachable) out-of-range state and for
packages of fewer than two elements, a failed `.unwrap()` when `\_Sx` is
absent from the namespace, and `panic!` for a non-Package value or
non-integer leading elements.  The two leading integers are truncated with
`as u8`. -/
def sleep_type_data (sys : Sys) (state : AcpiSleepState) : Outcome (Nat × Nat) :=
  if sleep_state_index state > SLEEP_STATE_NAMES.length then .panicked "todo"
  else
    let name := SLEEP_STATE_NAMES.getD (sleep_state_index state) ""
    match find_value sys.namespace_objects name with
    | none => .panicked "unwrap"
    | some info =>
      match info with
      | .package elements =>
        match elements with
        | [] => .panicked "todo"
        | [_] => .panicked "todo"
        | e0 :: e1 :: _ =>
          if type_of e0 ≠ .integer ∨ type_of e1 ≠ .integer then
            .panicked "Sleep package does not contain integers"
          else
            match as_integer e0, as_integer e1 with
            | some val_a, some val_b => .ok (val_a % 2 ^ 8, val_b % 2 ^ 8)
            | _, _ => .panicked "unwrap"
      | _ => .panicked "did not evaluate to Package AML type"

/-- The `if let Err(err) = self.aml_context.invoke_method(..)` pattern of
src/sleep.rs: invoke a method, treat `ValueDoesNotExist` as non-fatal
(logged and ignored), propagate every other AML error. -/
def invoke_optional (sys : Sys) (path : String) (args : List Nat) : EffM Unit :=
  match invoke_method sys path args with
  | (.error e, tr) =>
    if is_value_does_not_exist e then (.ok (), tr) else (.err (.amlError e), tr)
  | (.ok _, tr) => (.ok (), tr)

/-- The `_SST` argument computation of `prepare_sleep_state`: `todo!()`
(a panic) for S0–S4, `0` (ACPI_SST_INDICATOR_OFF) for S5. -/
def prepare_sst_value : AcpiSleepState → Outcome Nat
  | .s0 | .s1 | .s2 | .s3 | .s4 => .panicked "todo"
  | .s5 => .ok 0

/-- `prepare_sleep_state` from src/sleep.rs: `\_Sx` lookup, `\_PTS`
invocation (absence non-fatal), the `_SST` argument computation, and the
`\_SI._SST` invocation (absence non-fatal). -/
def prepare_sleep_state (sys : Sys) (state : AcpiSleepState) : EffM (Nat × Nat) :=
  match sleep_type_data sys state with
  | .ok sleep_types =>
    obind (invoke_optional sys PATH_PREPARE_TO_SLEEP [sleep_state_index state]) fun _ =>
    obind ((prepare_sst_value state, []) : EffM Nat) fun sst_value =>
    obind (invoke_optional sys PATH_SYSTEM_STATUS [sst_value]) fun _ =>
    (.ok sleep_types, [])
  | .err e => (.err e, [])
  | .panicked m => (.panicked m, [])
  | .diverges => (.diverges, [])

/-- `acpi_hw_legacy_sleep` from src/sleep.rs.  The fixed-event clear, wake
status and GPE manipulation steps are `TODO` comments in the source and do
not occur.  The inline `wbinvd; cli` is the `cacheFlush` effect; the final
`loop { hlt }` is `Outcome.diverges`. -/
def acpi_hw_legacy_sleep (sys : Sys) (sleep_type_a sleep_type_b : Nat) : EffM Unit :=
  obind (read_register sys .pm1Control) fun pm1_control =>
  let pm1_control := set_bit 32 pm1_control SLEEP_ENABLE_position false
  let pm1a_control := sleep_type_set_raw pm1_control sleep_type_a
  let pm1b_control := sleep_type_set_raw pm1_control sleep_type_b
  obind (write_pm1_control sys pm1a_control pm1b_control) fun _ =>
  obind ((.ok (), [.cacheFlush]) : EffM Unit) fun _ =>
  obind (write_pm1_control sys
          (set_bit 32 pm1a_control SLEEP_ENABLE_position true)
          (set_bit 32 pm1b_control SLEEP_ENABLE_position true)) fun _ =>
  ((.diverges : Outcome Unit), [])

/-- `dispatch_sleep_command` from src/sleep.rs: sleep type values above 7
hit `todo!()` (a panic — the `InvalidSleepValues` error variant of
src/error.rs is never constructed). -/
def dispatch_sleep_command (sys : Sys) (sleep_type_a sleep_type_b : Nat) : EffM Unit :=
  if sleep_type_a > 7 ∨ sleep_type_b > 7 then (.panicked "todo", [])
  else
    obind (acpi_hw_legacy_sleep sys sleep_type_a sleep_type_b) fun _ =>
    (.ok (), [])

/-- `enter_sleep_state` from src/lib.rs. -/
def enter_sleep_state (sys : Sys) (state : AcpiSleepState) : EffM Unit :=
  obind (prepare_sleep_state sys state) fun sleep_types =>
  dispatch_sleep_command sys sleep_types.1 sleep_types.2

/-! ## Concrete fixtures

A small family of concrete systems used to instantiate the theorems:
typical 16-bit SystemIO PM1 register blocks, and a host environment whose
three port-read functions return distinguishable values. -/

/-- Host environment whose port reads are distinguishable by width:
`io_read_u8 ↦ 0x08`, `io_read_u16 ↦ 0x1616`, `io_read_u32 ↦ 0x32323232`. -/
def io_env : Env :=
  ⟨fun _ => 0x08, fun _ => 0x1616, fun _ => 0x32323232,
   fun _ => 0, fun _ => 0, fun _ => 0, fun _ => 0⟩

/-- Host environment in which every read returns 0. -/
def zero_env : Env :=
  ⟨fun _ => 0, fun _ => 0, fun _ => 0, fun _ => 0, fun _ => 0, fun _ => 0, fun _ => 0⟩

def gas_pm1a_status : GenericAddress := ⟨.systemIo, 16, 0, .undefined, 0x800⟩
def gas_pm1b_status : GenericAddress := ⟨.systemIo, 16, 0, .undefined, 0x880⟩
def gas_pm1a_enable : GenericAddress := ⟨.systemIo, 16, 0, .undefined, 0x802⟩
def gas_pm1a_control : GenericAddress := ⟨.systemIo, 16, 0, .undefined, 0x804⟩
def gas_pm1b_control : GenericAddress := ⟨.systemIo, 16, 0, .undefined, 0x884⟩

/-- A system with PM1a-only status/enable blocks and both control blocks,
over `io_env`, with an empty AML namespace. -/
def sysC : Sys :=
  ⟨io_env, ⟨gas_pm1a_status, none, gas_pm1a_enable, none⟩,
   .ok gas_pm1a_control, .ok (some gas_pm1b_control), [], []⟩

/-- Like `sysC` but with a PM1b status block present. -/
def sysB : Sys :=
  ⟨io_env, ⟨gas_pm1a_status, some gas_pm1b_status, gas_pm1a_enable, none⟩,
   .ok gas_pm1a_control, .ok (some gas_pm1b_control), [], []⟩

/-! ## C2: SystemIO raw-read width dispatch -/

/-- C2: the SystemIO arm of `read_address_space` swaps the 16- and 32-bit
host reads: width 16 invokes `io_read_u32` (value `0x32323232`, a 32-bit
port read in the trace) and width 32 invokes `io_read_u16` (value
`0x1616`, a 16-bit port read in the trace) — the opposite of the claimed
(and intended) routing. -/
theorem read_address_space_swaps_io_16_and_32 :
    read_address_space io_env .systemIo 0x80 16 = (.ok 0x32323232, [.ioRead 32 0x80]) ∧
    read_address_space io_env .systemIo 0x80 32 = (.ok 0x1616, [.ioRead 16 0x80]) ∧
    io_env.io_read_u32 0x80 = 0x32323232 ∧ io_env.io_read_u16 0x80 = 0x1616 :=
  ⟨by decide, by decide, rfl, rfl⟩

/-! ## C3: invalid sleep type values -/

/-- C3: `dispatch_sleep_command(8, 0)` performs no register access (the
trace is empty) but panics via `todo!()` instead of returning
`Err(InvalidSleepValues(8, 0))` as the claim states. -/
theorem dispatch_sleep_command_invalid_values_panics :
    dispatch_sleep_command sysC 8 0 = (.panicked "todo", []) ∧
    dispatch_sleep_command sysC 8 0 ≠ (.err (.invalidSleepValues 8 0), []) :=
  ⟨rfl, by decide⟩

/-! ## C4: the `\_Sx` lookup failure modes -/

/-- Like `sysC` but where `\_S5_` names an Integer (not a Package). -/
def sys_bad_s5 : Sys :=
  ⟨io_env, ⟨gas_pm1a_status, none, gas_pm1a_enable, none⟩,
   .ok gas_pm1a_control, .ok (some gas_pm1b_control),
   [("\\_S5_", .integer 3)], []⟩

/-- Like `sysC` but where `\_S5_` is a Package whose first element is not
an Integer. -/
def sys_nonint_s5 : Sys :=
  ⟨io_env, ⟨gas_pm1a_status, none, gas_pm1a_enable, none⟩,
   .ok gas_pm1a_control, .ok (some gas_pm1b_control),
   [("\\_S5_", .package [.otherValue 0, .integer 1])], []⟩

/-- C4: `sleep_type_data` panics in each of the failure modes the claim
says it reports as errors: `\_S5_` absent (failed `.unwrap()` of the
namespace lookup), `\_S5_` not a Package (`panic!`), and a Package whose
leading elements are not Integers (`panic!`).  `MissingSleepMethod` /
`InvalidSleepMethod` are never returned. -/
theorem sleep_type_data_panics_instead_of_erroring :
    sleep_type_data sysC .s5 = .panicked "unwrap" ∧
    sleep_type_data sys_bad_s5 .s5 = .panicked "did not evaluate to Package AML type" ∧
    sleep_type_data sys_nonint_s5 .s5 = .panicked "Sleep package does not contain integers" :=
  ⟨rfl, rfl, rfl⟩

/-! ## C6: access width for aligned power-of-two registers -/

def c6_gas : GenericAddress := ⟨.systemIo, 64, 0, .undefined, 0⟩

/-- C6 counterexample: a SystemIO generic address with `bit_offset = 0` and
`bit_width = 64` gets access width 32, not 64 — the SystemIO cap overrides
the bit width, so the claim's "for every address space" fails. -/
theorem access_bit_width_systemio_qword_counterexample :
    c6_gas.bit_offset = 0 ∧ c6_gas.bit_width = 64 ∧
    access_bit_width c6_gas 0 64 = 32 ∧ access_bit_width c6_gas 0 64 ≠ c6_gas.bit_width :=
  ⟨rfl, rfl, rfl, by decide⟩

/-- C6 (amended): for `bit_offset = 0` and `bit_width ∈ {8, 16, 32, 64}`
and caller maximum 64, `access_bit_width` returns exactly `bit_width`
regardless of `access_size` and address — except that a SystemIO address
with `bit_width = 64` is capped to 32. -/
theorem access_bit_width_matches_bit_width (g : GenericAddress) (address : Nat)
    (h0 : g.bit_offset = 0)
    (hw : g.bit_width = 8 ∨ g.bit_width = 16 ∨ g.bit_width = 32 ∨ g.bit_width = 64) :
    access_bit_width g address 64 =
      if g.address_space = .systemIo ∧ g.bit_width = 64 then 32 else g.bit_width := by
  obtain ⟨sp, bw, bo, asz, addr⟩ := g
  simp only at h0
  subst h0
  rcases hw with h | h | h | h <;> simp only at h <;> subst h <;>
    cases sp <;>
      simp [access_bit_width, is_power_of_two, show (8 &&& 7 : Nat) = 0 from rfl,
        show (16 &&& 15 : Nat) = 0 from rfl, show (32 &&& 31 : Nat) = 0 from rfl,
        show (64 &&& 63 : Nat) = 0 from rfl]

/-- C6 witness: a SystemMemory address with `bit_width = 16` and
`access_size = QWordAccess` still gets access width 16. -/
theorem access_bit_width_matches_bit_width_witness :
    access_bit_width ⟨.systemMemory, 16, 0, .qwordAccess, 0x2000⟩ 0x2000 64 = 16 := by
  have h := access_bit_width_matches_bit_width ⟨.systemMemory, 16, 0, .qwordAccess, 0x2000⟩
    0x2000 rfl (Or.inr (Or.inl rfl))
  simpa using h

/-! ## C9: `enter_sleep_state` never returns `Ok(())` -/

theorem acpi_hw_legacy_sleep_fst_ne_ok (sys : Sys) (a b : Nat) (u : Unit) :
    (acpi_hw_legacy_sleep sys a b).1 ≠ .ok u := by
  intro h
  unfold acpi_hw_legacy_sleep at h
  obtain ⟨c, hc, h⟩ := obind_fst_ok h
  obtain ⟨w1, hw1, h⟩ := obind_fst_ok h
  obtain ⟨w2, hw2, h⟩ := obind_fst_ok h
  obtain ⟨w3, hw3, h⟩ := obind_fst_ok h
  simp at h

/-- C9: for every system state and sleep state, `enter_sleep_state` never
yields `Ok(())`: every execution path errors, panics, or diverges in the
`hlt` loop after the second PM1 Control write — the `Ok` branch after
`dispatch_sleep_command` is unreachable. -/
theorem enter_sleep_state_never_ok (sys : Sys) (state : AcpiSleepState) :
    (enter_sleep_state sys state).1 ≠ .ok () := by
  intro h
  unfold enter_sleep_state at h
  obtain ⟨⟨a, b⟩, hp, h⟩ := obind_fst_ok h
  unfold dispatch_sleep_command at h
  by_cases hg : a > 7 ∨ b > 7
  · rw [if_pos hg] at h
    simp at h
  · rw [if_neg hg] at h
    obtain ⟨u, hu, _⟩ := obind_fst_ok h
    exact acpi_hw_legacy_sleep_fst_ne_ok sys a b u hu

/-- C9 witness at a concrete system and sleep state. -/
theorem enter_sleep_state_never_ok_witness :
    (enter_sleep_state sysC .s5).1 ≠ .ok () :=
  enter_sleep_state_never_ok sysC .s5

/-! ## The `regWrite` effects of a register-layer write -/

/-- Projection of a trace to its `regWrite` effects (a call of
`write_address` with its generic address and value). -/
def reg_writes (tr : List Effect) : List (GenericAddress × Nat) :=
  tr.filterMap fun e =>
    match e with
    | .regWrite g v => some (g, v)
    | _ => none

theorem reg_writes_nil : reg_writes [] = [] := rfl

theorem reg_writes_append (a b : List Effect) :
    reg_writes (a ++ b) = reg_writes a ++ reg_writes b :=
  List.filterMap_append a b _

theorem reg_writes_obind {α β : Type} (x : EffM α) (f : α → EffM β)
    (hx : reg_writes x.2 = []) (hf : ∀ a, reg_writes (f a).2 = []) :
    reg_writes (obind x f).2 = [] := by
  rcases x with ⟨out, tr⟩
  cases out with
  | ok a =>
    show reg_writes (tr ++ (f a).2) = []
    rw [reg_writes_append, hx, hf a]
    rfl
  | err e => exact hx
  | panicked m => exact hx
  | diverges => exact hx

theorem reg_writes_write_address_space (space : AddressSpace) (address width v : Nat) :
    reg_writes (write_address_space space address width v).2 = [] := by
  unfold write_address_space
  cases space with
  | systemMemory => rfl
  | otherSpace tag => rfl
  | systemIo =>
    by_cases h : address < 2 ^ 16
    · rw [if_pos h]
      match width with
      | 8 => rfl
      | 16 => rfl
      | 32 => rfl
      | 0 | 1 | 2 | 3 | 4 | 5 | 6 | 7 | 9 | 10 | 11 | 12 | 13 | 14 | 15 | 17 | 18 | 19
      | 20 | 21 | 22 | 23 | 24 | 25 | 26 | 27 | 28 | 29 | 30 | 31 | (n + 33) => rfl
    · rw [if_neg h]; rfl

theorem reg_writes_write_address_loop (space : AddressSpace) (address aw value : Nat) :
    ∀ fuel bw bo idx, reg_writes (write_address_loop space address aw value fuel bw bo idx).2 = [] := by
  intro fuel
  induction fuel with
  | zero => intro bw bo idx; rfl
  | succ n ih =>
    intro bw bo idx
    unfold write_address_loop
    by_cases hbw : bw = 0
    · simp only [if_pos hbw]; rfl
    · rw [if_neg hbw]
      by_cases hr : idx * aw + aw ≤ 64
      · simp only [if_pos hr]
        apply reg_writes_obind
        · by_cases hskip : aw ≤ bo
          · simp only [if_pos hskip]; rfl
          · simp only [if_neg hskip]
            exact reg_writes_write_address_space space (address + idx * aw / 8) aw _
        · intro a
          by_cases hcont : aw < bw
          · simp only [if_pos hcont]; exact ih _ _ _
          · simp only [if_neg hcont]; rfl
      · simp only [if_neg hr]; rfl

theorem reg_writes_write_address (g : GenericAddress) (v : Nat) :
    reg_writes (write_address g v).2 = [(g, v)] := by
  unfold write_address
  show reg_writes (.regWrite g v :: _) = [(g, v)]
  unfold reg_writes
  rw [List.filterMap_cons]
  simp only []
  have := reg_writes_write_address_loop g.address_space g.address
    (access_bit_width g g.address 64) v (g.bit_width + g.bit_offset + 1)
    (g.bit_width + g.bit_offset) g.bit_offset 0
  unfold reg_writes at this
  rw [this]

/-- The mask `!PM1_STATUS_PRESERVED_BITS` (as a `u32`) that `write_register`
applies to every PM1 Status write. -/
def pm1_status_write_mask : Nat := (2 ^ 32 - 1) ^^^ PM1_STATUS_PRESERVED_BITS

theorem write_register_pair_mem (a : GenericAddress) (b : Option GenericAddress) (w : Nat) :
    ∀ p ∈ reg_writes (write_register_pair a b w).2, p.2 = w := by
  intro p hp
  unfold write_register_pair at hp
  rcases hwa : write_address a w with ⟨out, tr⟩
  have htr : reg_writes tr = [(a, w)] := by
    have h := reg_writes_write_address a w
    rw [hwa] at h
    exact h
  rw [hwa] at hp
  cases out with
  | ok u =>
    simp only [obind_ok] at hp
    rw [reg_writes_append, htr] at hp
    rcases List.mem_append.1 hp with h | h
    · rw [List.mem_singleton.1 h]
    · cases b with
      | none => simp [reg_writes] at h
      | some gb =>
        have hgb := reg_writes_write_address gb w
        rw [hgb] at h
        rw [List.mem_singleton.1 h]
  | err e =>
    simp only [obind_err] at hp
    rw [htr] at hp
    rw [List.mem_singleton.1 hp]
  | panicked m =>
    simp only [obind_panicked] at hp
    rw [htr] at hp
    rw [List.mem_singleton.1 hp]
  | diverges =>
    simp only [obind_diverges] at hp
    rw [htr] at hp
    rw [List.mem_singleton.1 hp]

theorem write_register_pair_ok_writes (a : GenericAddress) (b : Option GenericAddress) (w : Nat)
    (h : (write_register_pair a b w).1 = .ok ()) :
    reg_writes (write_register_pair a b w).2 =
      (a, w) :: (b.map fun gb => (gb, w)).toList := by
  unfold write_register_pair at h ⊢
  rcases hwa : write_address a w with ⟨out, tr⟩
  have htr : reg_writes tr = [(a, w)] := by
    have hh := reg_writes_write_address a w
    rw [hwa] at hh
    exact hh
  rw [hwa] at h
  cases out with
  | ok u =>
    simp only [obind_ok]
    rw [reg_writes_append, htr]
    cases b with
    | none => rfl
    | some gb =>
      have hgb := reg_writes_write_address gb w
      rw [hgb]
      rfl
  | err e => exact absurd h (by simp [obind])
  | panicked m => exact absurd h (by simp [obind])
  | diverges => exact absurd h (by simp [obind])

/-- C5: every `regWrite` issued by `write_register(Pm1Status, v)` carries
the value `v &&& !(1 << 11)` (bit 11 always clear), and on success the
writes are exactly one to the A status address and — when present — one of
the same value to the B status address.  The mask is `0xFFFFF7FF`. -/
theorem write_register_pm1_status_masks_bit11 (sys : Sys) (v : Nat) (hv : v < 2 ^ 32) :
    pm1_status_write_mask = 0xFFFFF7FF ∧
    (∀ p ∈ reg_writes (write_register sys .pm1Status v).2,
      p.2 = v &&& pm1_status_write_mask ∧ Nat.testBit p.2 11 = false) ∧
    ((write_register sys .pm1Status v).1 = .ok () →
      reg_writes (write_register sys .pm1Status v).2 =
        (sys.pm1_registers.x_pm1a_status, v &&& pm1_status_write_mask) ::
          (sys.pm1_registers.x_pm1b_status.map
            fun gb => (gb, v &&& pm1_status_write_mask)).toList) := by
  refine ⟨by decide, ?_, ?_⟩
  · intro p hp
    have hval : p.2 = v &&& pm1_status_write_mask :=
      write_register_pair_mem sys.pm1_registers.x_pm1a_status
        sys.pm1_registers.x_pm1b_status (v &&& pm1_status_write_mask) p hp
    refine ⟨hval, ?_⟩
    rw [hval, Nat.and_comm, Nat.testBit_land]
    have : Nat.testBit pm1_status_write_mask 11 = false := by decide
    rw [this]
    rfl
  · intro h
    exact write_register_pair_ok_writes sys.pm1_registers.x_pm1a_status
      sys.pm1_registers.x_pm1b_status (v &&& pm1_status_write_mask) h

/-- C5 witness: `write_register(Pm1Status, 0xFFFFFFFF)` on a system with
both status addresses issues exactly the two writes of `0xFFFFF7FF`. -/
theorem write_register_pm1_status_masks_bit11_witness :
    (0xFFFFFFFF : Nat) < 2 ^ 32 ∧
    reg_writes (write_register sysB .pm1Status 0xFFFFFFFF).2 =
      [(gas_pm1a_status, 0xFFFFF7FF), (gas_pm1b_status, 0xFFFFF7FF)] := by
  refine ⟨by norm_num, ?_⟩
  have h := (write_register_pm1_status_masks_bit11 sysB 0xFFFFFFFF (by norm_num)).2.2
    (by decide)
  rw [h]
  decide

/-! ## C10: `clear_fixed_events` writes back the raw value it read -/

/-- C10: whatever value `v` the PM1 Status read returns,
`clear_fixed_events` is exactly that read followed by
`write_register(Pm1Status, v)` — the accumulated per-event mask does not
influence the outcome or the trace, and every issued write carries
`v &&& !(1 << 11)`. -/
theorem clear_fixed_events_writes_back_read_value (sys : Sys) (v : Nat) (rtr : List Effect)
    (h : read_register sys .pm1Status = (.ok v, rtr)) :
    clear_fixed_events sys =
      ((write_register sys .pm1Status v).1, rtr ++ (write_register sys .pm1Status v).2) ∧
    ∀ p ∈ reg_writes (write_register sys .pm1Status v).2, p.2 = v &&& pm1_status_write_mask := by
  constructor
  · unfold clear_fixed_events
    rw [h]
    rfl
  · intro p hp
    exact write_register_pair_mem sys.pm1_registers.x_pm1a_status
      sys.pm1_registers.x_pm1b_status (v &&& pm1_status_write_mask) p hp

/-- C10 witness on `sysB` (both status addresses present; `io_env` makes
the merged read value `0x3232 ||| 0x3232 = 0x3232`). -/
theorem clear_fixed_events_writes_back_read_value_witness :
    clear_fixed_events sysB =
      ((write_register sysB .pm1Status 0x3232).1,
        [.regRead gas_pm1a_status, .ioRead 32 0x800, .regRead gas_pm1b_status, .ioRead 32 0x880] ++
          (write_register sysB .pm1Status 0x3232).2) := by
  have h := (clear_fixed_events_writes_back_read_value sysB 0x3232
    [.regRead gas_pm1a_status, .ioRead 32 0x800, .regRead gas_pm1b_status, .ioRead 32 0x880]
    (by decide)).1
  exact h

/-! ## C1: the legacy sleep effect sequence -/

/-- A system over an arbitrary host environment with the concrete PM1
layout of `sysC` (16-bit SystemIO blocks; PM1b control present). -/
def c1_sys (env : Env) : Sys :=
  ⟨env, ⟨gas_pm1a_status, none, gas_pm1a_enable, none⟩,
   .ok gas_pm1a_control, .ok (some gas_pm1b_control), [], []⟩

/-- Value assembled by `read_address` for a 16-bit SystemIO register at
`port` (note: routed through `io_read_u32` by the swapped dispatch). -/
def read_u16_value (env : Env) (port : Nat) : Nat :=
  set_bits 64 0 0 16 (get_bits (env.io_read_u32 port % 2 ^ 32) 0 16) % 2 ^ 32

/-- The PM1 Control value `read_register` returns on `c1_sys env`. -/
def c1_control (env : Env) : Nat :=
  read_u16_value env 0x804 ||| read_u16_value env 0x884

/-- The control value with SLEEP_ENABLE cleared. -/
def c1_base (env : Env) : Nat :=
  set_bit 32 (c1_control env) SLEEP_ENABLE_position false

/-- The A-side (resp. B-side) PM1 Control value: sleep type spliced into
SLEEP_TYPE (bits 10..13) of the cleared control value. -/
def c1_ctl (env : Env) (t : Nat) : Nat :=
  sleep_type_set_raw (c1_base env) t

/-- The 16-bit chunk a `write_address` of `x` puts on a 16-bit port. -/
def io_chunk16 (x : Nat) : Nat :=
  get_bits x 0 16 % 2 ^ 16

/-- Does an effect touch the PM1 Status block of `c1_sys` (generic address
`gas_pm1a_status`, port `0x800`)? -/
def touches_pm1_status (e : Effect) : Bool :=
  match e with
  | .regRead g => decide (g = gas_pm1a_status)
  | .regWrite g _ => decide (g = gas_pm1a_status)
  | .ioRead _ p => decide (p = 0x800)
  | .ioWrite _ p _ => decide (p = 0x800)
  | _ => false

/-- C1 counterexample: `acpi_hw_legacy_sleep(5, 5)` never accesses the PM1
Status register pair at all — its first effect is already the PM1 Control
read — so the claimed fixed-event status clear and WAKE_STATUS set (which
are PM1 Status accesses required to precede the PM1 Control read) do not
occur.  In the source they are only `TODO` comments. -/
theorem legacy_sleep_performs_no_pm1_status_access :
    ((acpi_hw_legacy_sleep (c1_sys zero_env) 5 5).2.all fun e => !touches_pm1_status e) = true ∧
    (acpi_hw_legacy_sleep (c1_sys zero_env) 5 5).2.head? = some (.regRead gas_pm1a_control) :=
  ⟨by decide, by decide⟩

/-- C1 (amended): on a system with 16-bit SystemIO PM1 control blocks at
ports `0x804`/`0x884`, for any host environment and sleep types
`a, b ≤ 7`, `acpi_hw_legacy_sleep(a, b)` performs exactly: read PM1
Control (A then B), write the A value (SLEEP_ENABLE cleared, `a` spliced
into SLEEP_TYPE) to A and the B value to B, flush the CPU cache, write
both values again with SLEEP_ENABLE set, and diverge in the `hlt` loop.
No PM1 Status access occurs (see the counterexample theorem). -/
theorem legacy_sleep_effect_sequence (env : Env) (a b : Nat) (ha : a ≤ 7) (hb : b ≤ 7) :
    acpi_hw_legacy_sleep (c1_sys env) a b =
      (.diverges,
       [.regRead gas_pm1a_control, .ioRead 32 0x804,
        .regRead gas_pm1b_control, .ioRead 32 0x884,
        .regWrite gas_pm1a_control (c1_ctl env a), .ioWrite 16 0x804 (io_chunk16 (c1_ctl env a)),
        .regWrite gas_pm1b_control (c1_ctl env b), .ioWrite 16 0x884 (io_chunk16 (c1_ctl env b)),
        .cacheFlush,
        .regWrite gas_pm1a_control (set_bit 32 (c1_ctl env a) SLEEP_ENABLE_position true),
        .ioWrite 16 0x804 (io_chunk16 (set_bit 32 (c1_ctl env a) SLEEP_ENABLE_position true)),
        .regWrite gas_pm1b_control (set_bit 32 (c1_ctl env b) SLEEP_ENABLE_position true),
        .ioWrite 16 0x884 (io_chunk16 (set_bit 32 (c1_ctl env b) SLEEP_ENABLE_position true))]) :=
  rfl

/-- C1 witness at `io_env` and sleep types `(5, 5)`. -/
theorem legacy_sleep_effect_sequence_witness :
    (5 ≤ 7) ∧
    acpi_hw_legacy_sleep (c1_sys io_env) 5 5 =
      (.diverges,
       [.regRead gas_pm1a_control, .ioRead 32 0x804,
        .regRead gas_pm1b_control, .ioRead 32 0x884,
        .regWrite gas_pm1a_control (c1_ctl io_env 5), .ioWrite 16 0x804 (io_chunk16 (c1_ctl io_env 5)),
        .regWrite gas_pm1b_control (c1_ctl io_env 5), .ioWrite 16 0x884 (io_chunk16 (c1_ctl io_env 5)),
        .cacheFlush,
        .regWrite gas_pm1a_control (set_bit 32 (c1_ctl io_env 5) SLEEP_ENABLE_position true),
        .ioWrite 16 0x804 (io_chunk16 (set_bit 32 (c1_ctl io_env 5) SLEEP_ENABLE_position true)),
        .regWrite gas_pm1b_control (set_bit 32 (c1_ctl io_env 5) SLEEP_ENABLE_position true),
        .ioWrite 16 0x884 (io_chunk16 (set_bit 32 (c1_ctl io_env 5) SLEEP_ENABLE_position true))]) :=
  ⟨by decide, legacy_sleep_effect_sequence io_env 5 5 (by decide) (by decide)⟩

/-! ## C7: GPE block initialization invariants -/

theorem initialize_gpe_block_loop_spec (ga : GenericAddress) (r B : Nat) :
    ∀ n i rs es,
      (initialize_gpe_block_loop ga r B i n).1 = .ok (rs, es) →
      rs.length = n ∧ es.length = GPE_REGISTER_WIDTH * n ∧
      (∀ k (hk : k < es.length),
        es[k] = GpeEventInfo.mk (B + i * GPE_REGISTER_WIDTH + k) (i + k / GPE_REGISTER_WIDTH)) ∧
      (∀ t (ht : t < rs.length),
        (rs[t]).base_gpe_number = B + (i + t) * GPE_REGISTER_WIDTH) := by
  intro n
  induction n with
  | zero =>
    intro i rs es h
    simp only [initialize_gpe_block_loop, Outcome.ok.injEq, Prod.mk.injEq] at h
    obtain ⟨hrs, hes⟩ := h
    subst hrs
    subst hes
    refine ⟨by simp, by simp, ?_, ?_⟩
    · intro k hk
      exact absurd hk (by simp)
    · intro t ht
      exact absurd ht (by simp)
  | succ n ih =>
    intro i rs es h
    unfold initialize_gpe_block_loop at h
    obtain ⟨u1, hu1, h⟩ := obind_fst_ok h
    obtain ⟨u2, hu2, h⟩ := obind_fst_ok h
    obtain ⟨⟨rs', es'⟩, hrec, h⟩ := obind_fst_ok h
    simp only [Outcome.ok.injEq, Prod.mk.injEq] at h
    obtain ⟨hrs, hes⟩ := h
    subst hrs
    subst hes
    obtain ⟨hlen_r, hlen_e, hget_e, hget_r⟩ := ih (i + 1) rs' es' hrec
    have hevlen : ((List.range GPE_REGISTER_WIDTH).map fun j =>
        GpeEventInfo.mk (B + i * GPE_REGISTER_WIDTH + j) i).length = GPE_REGISTER_WIDTH := by
      simp
    refine ⟨?_, ?_, ?_, ?_⟩
    · simp [hlen_r]
    · rw [List.length_append, hevlen, hlen_e]
      simp only [GPE_REGISTER_WIDTH]
      omega
    · intro k hk
      by_cases hk8 : k < GPE_REGISTER_WIDTH
      · rw [List.getElem_append_left (by rw [hevlen]; exact hk8)]
        rw [List.getElem_map, List.getElem_range]
        simp [Nat.div_eq_of_lt hk8]
      · rw [List.getElem_append_right (by rw [hevlen]; omega)]
        rw [hget_e]
        · simp only [List.length_map, List.length_range, GpeEventInfo.mk.injEq,
            GPE_REGISTER_WIDTH] at hk8 ⊢
          constructor
          · omega
          · omega
    · intro t ht
      match t with
      | 0 =>
        simp
      | t + 1 =>
        have htb : t < rs'.length := by
          simp only [List.length_cons] at ht
          omega
        rw [List.getElem_cons_succ, hget_r t htb]
        ring_nf

/-- Out-of-range fallback values used with `List.getD` when stating the
GPE block invariants. -/
def default_event : GpeEventInfo := ⟨0, 0⟩

def default_register : GpeRegisterInfo :=
  ⟨0, ⟨.systemMemory, 0, 0, .undefined, 0⟩, ⟨.systemMemory, 0, 0, .undefined, 0⟩⟩

/-- C7: whenever `initialize_gpe_block` with `register_count = r ≥ 1` and
base GPE number `B` returns a block (the `2 ^ 16` bound keeps `u16`
arithmetic exact), that block has `gpe_count = r × 8`, exactly `gpe_count`
event infos and `r` register infos, and every event's GPE number is its
register's base GPE number plus the event's index mod 8. -/
theorem initialize_gpe_block_invariants (ga : GenericAddress) (r B : Nat) (blk : GpeBlock)
    (tr : List Effect) (hr : 1 ≤ r) (hu16 : B + r * GPE_REGISTER_WIDTH ≤ 2 ^ 16)
    (h : initialize_gpe_block ga r B = (.ok blk, tr)) :
    blk.gpe_count = r * GPE_REGISTER_WIDTH ∧
    blk.event_info.length = blk.gpe_count ∧
    blk.register_info.length = r ∧
    ∀ k, k < blk.event_info.length →
      (blk.event_info.getD k default_event).register_index < blk.register_info.length ∧
      (blk.event_info.getD k default_event).gpe_number =
        (blk.register_info.getD (blk.event_info.getD k default_event).register_index
          default_register).base_gpe_number + k % GPE_REGISTER_WIDTH := by
  unfold initialize_gpe_block at h
  rcases hloop : initialize_gpe_block_loop ga r B 0 r with ⟨out, ltr⟩
  rw [hloop] at h
  cases out with
  | ok lists =>
    simp only [obind_ok] at h
    obtain ⟨rs, es⟩ := lists
    simp only [Prod.mk.injEq, Outcome.ok.injEq] at h
    obtain ⟨hblk, htr⟩ := h
    have hfst : (initialize_gpe_block_loop ga r B 0 r).1 = .ok (rs, es) := by
      rw [hloop]
    obtain ⟨hlen_r, hlen_e, hget_e, hget_r⟩ :=
      initialize_gpe_block_loop_spec ga r B r 0 rs es hfst
    subst hblk
    refine ⟨rfl, ?_, ?_, ?_⟩
    · show es.length = r * GPE_REGISTER_WIDTH
      simp only [GPE_REGISTER_WIDTH] at hlen_e ⊢
      omega
    · show rs.length = r
      omega
    · intro k hk
      have hk2 : k < es.length := hk
      have hke : es.getD k default_event =
          GpeEventInfo.mk (B + 0 * GPE_REGISTER_WIDTH + k) (0 + k / GPE_REGISTER_WIDTH) := by
        rw [List.getD_eq_getElem es default_event hk2]
        exact hget_e k hk2
      have hdiv_lt : k / GPE_REGISTER_WIDTH < r := by
        simp only [GPE_REGISTER_WIDTH] at hlen_e hk2 ⊢
        omega
      have hidx : 0 + k / GPE_REGISTER_WIDTH < rs.length := by
        simp only [GPE_REGISTER_WIDTH] at hdiv_lt ⊢
        omega
      show (es.getD k default_event).register_index < rs.length ∧
        (es.getD k default_event).gpe_number =
          (rs.getD (es.getD k default_event).register_index
            default_register).base_gpe_number + k % GPE_REGISTER_WIDTH
      rw [hke]
      refine ⟨hidx, ?_⟩
      show B + 0 * GPE_REGISTER_WIDTH + k =
        (rs.getD (0 + k / GPE_REGISTER_WIDTH) default_register).base_gpe_number +
          k % GPE_REGISTER_WIDTH
      rw [List.getD_eq_getElem rs default_register hidx, hget_r _ hidx]
      simp only [GPE_REGISTER_WIDTH]
      omega
  | err e => simp [obind] at h
  | panicked m => simp [obind] at h
  | diverges => simp [obind] at h

/-- The FADT GPE0 block address of the C7 test scenario. -/
def gpe0_gas : GenericAddress := ⟨.systemIo, 64, 0, .undefined, 0x1000⟩

/-- The GPE block produced for `gpe0_gas` with 4 registers and base 0. -/
def c7_block : GpeBlock :=
  ⟨[⟨0, ⟨.systemIo, 8, 0, .undefined, 0x1004⟩, ⟨.systemIo, 8, 0, .undefined, 0x1000⟩⟩,
    ⟨8, ⟨.systemIo, 8, 0, .undefined, 0x1005⟩, ⟨.systemIo, 8, 0, .undefined, 0x1001⟩⟩,
    ⟨16, ⟨.systemIo, 8, 0, .undefined, 0x1006⟩, ⟨.systemIo, 8, 0, .undefined, 0x1002⟩⟩,
    ⟨24, ⟨.systemIo, 8, 0, .undefined, 0x1007⟩, ⟨.systemIo, 8, 0, .undefined, 0x1003⟩⟩],
   (List.range 32).map fun k => ⟨k, k / 8⟩,
   32⟩

/-- The effect trace of that initialization: per register, 0x00 to the
enable byte then 0xFF to the status byte. -/
def c7_trace : List Effect :=
  [.regWrite ⟨.systemIo, 8, 0, .undefined, 0x1004⟩ 0x00, .ioWrite 8 0x1004 0x00,
   .regWrite ⟨.systemIo, 8, 0, .undefined, 0x1000⟩ 0xFF, .ioWrite 8 0x1000 0xFF,
   .regWrite ⟨.systemIo, 8, 0, .undefined, 0x1005⟩ 0x00, .ioWrite 8 0x1005 0x00,
   .regWrite ⟨.systemIo, 8, 0, .undefined, 0x1001⟩ 0xFF, .ioWrite 8 0x1001 0xFF,
   .regWrite ⟨.systemIo, 8, 0, .undefined, 0x1006⟩ 0x00, .ioWrite 8 0x1006 0x00,
   .regWrite ⟨.systemIo, 8, 0, .undefined, 0x1002⟩ 0xFF, .ioWrite 8 0x1002 0xFF,
   .regWrite ⟨.systemIo, 8, 0, .undefined, 0x1007⟩ 0x00, .ioWrite 8 0x1007 0x00,
   .regWrite ⟨.systemIo, 8, 0, .undefined, 0x1003⟩ 0xFF, .ioWrite 8 0x1003 0xFF]

/-- C7 witness: the concrete GPE0 scenario — `register_count = 4`, base 0,
block at `0x1000` — produces exactly `c7_block` (with
`event_info[17] = (gpe_number 17, register_index 2)`) and the expected
write trace, and the invariants theorem applies to it. -/
theorem initialize_gpe_block_invariants_witness :
    (1 ≤ 4) ∧ (0 + 4 * GPE_REGISTER_WIDTH ≤ 2 ^ 16) ∧
    initialize_gpe_block gpe0_gas 4 0 = (.ok c7_block, c7_trace) ∧
    c7_block.gpe_count = 4 * GPE_REGISTER_WIDTH ∧
    c7_block.event_info.length = c7_block.gpe_count ∧
    c7_block.register_info.length = 4 ∧
    c7_block.event_info.getD 17 default_event = ⟨17, 2⟩ := by
  have h := initialize_gpe_block_invariants gpe0_gas 4 0 c7_block c7_trace
    (by decide) (by decide) (by decide)
  exact ⟨by decide, by decide, by decide, h.1, h.2.1, h.2.2.1, by decide⟩

/-! ## C8: the `\_SI._SST` invocation -/

theorem obind_snd_of_ok {α β : Type} {x : EffM α} {f : α → EffM β} {a : α}
    (h : x.1 = .ok a) : (obind x f).2 = x.2 ++ (f a).2 := by
  rcases x with ⟨out, tr⟩
  cases out <;> simp_all [obind]

theorem invoke_optional_snd (sys : Sys) (path : String) (args : List Nat) :
    (invoke_optional sys path args).2 = [.invokeMethod path args] := by
  unfold invoke_optional invoke_method
  cases hf : find_value sys.methods path with
  | none => rfl
  | some r =>
    cases r with
    | ok v => rfl
    | error e =>
      cases hv : is_value_does_not_exist e <;> simp [hv]

/-- C8 (amended): `prepare_sleep_state(S5)`, whenever it succeeds, has
invoked `\_SI._SST` with argument 0 (OFF); for every other sleep state the
`_SST` argument computation is `todo!()`, so `prepare_sleep_state` never
returns the sleep-type pair (it panics, or propagates a fatal `\_PTS`
error) and never invokes `\_SI._SST`. -/
theorem prepare_sleep_state_sst (sys : Sys) :
    (∀ p, (prepare_sleep_state sys .s5).1 = .ok p →
      Effect.invokeMethod PATH_SYSTEM_STATUS [0] ∈ (prepare_sleep_state sys .s5).2) ∧
    (∀ state, state ≠ AcpiSleepState.s5 →
      (∀ p, (prepare_sleep_state sys state).1 ≠ .ok p) ∧
      (∀ args, Effect.invokeMethod PATH_SYSTEM_STATUS args ∉ (prepare_sleep_state sys state).2)) := by
  constructor
  · intro p h
    cases hstd : sleep_type_data sys .s5 with
    | ok st =>
      unfold prepare_sleep_state at h ⊢
      simp only [hstd] at h ⊢
      obtain ⟨u1, hu1, h2⟩ := obind_fst_ok h
      obtain ⟨sv, hv, h3⟩ := obind_fst_ok h2
      have hsv : sv = 0 := by
        have hv2 : (prepare_sst_value AcpiSleepState.s5) = .ok sv := hv
        simp only [prepare_sst_value, Outcome.ok.injEq] at hv2
        omega
      subst hsv
      obtain ⟨u3, hu3, _⟩ := obind_fst_ok h3
      rw [obind_snd_of_ok hu1,
        obind_snd_of_ok (show ((prepare_sst_value AcpiSleepState.s5,
          ([] : List Effect)) : EffM Nat).1 = .ok 0 from rfl),
        obind_snd_of_ok hu3]
      simp [invoke_optional_snd]
    | err e => unfold prepare_sleep_state at h; simp [hstd] at h
    | panicked m => unfold prepare_sleep_state at h; simp [hstd] at h
    | diverges => unfold prepare_sleep_state at h; simp [hstd] at h
  · intro state hne
    have hval : prepare_sst_value state = .panicked "todo" := by
      cases state with
      | s5 => exact absurd rfl hne
      | s0 => rfl
      | s1 => rfl
      | s2 => rfl
      | s3 => rfl
      | s4 => rfl
    constructor
    · intro p h
      cases hstd : sleep_type_data sys state with
      | ok st =>
        unfold prepare_sleep_state at h
        simp only [hstd] at h
        obtain ⟨u1, hu1, h2⟩ := obind_fst_ok h
        obtain ⟨sv, hv, h3⟩ := obind_fst_ok h2
        have : (prepare_sst_value state) = .ok sv := hv
        rw [hval] at this
        simp at this
      | err e => unfold prepare_sleep_state at h; simp [hstd] at h
      | panicked m => unfold prepare_sleep_state at h; simp [hstd] at h
      | diverges => unfold prepare_sleep_state at h; simp [hstd] at h
    · intro args hmem
      cases hstd : sleep_type_data sys state with
      | ok st =>
        unfold prepare_sleep_state at hmem
        simp only [hstd] at hmem
        rcases hopt : invoke_optional sys PATH_PREPARE_TO_SLEEP [sleep_state_index state]
          with ⟨out2, tr2⟩
        have htr2 : tr2 = [.invokeMethod PATH_PREPARE_TO_SLEEP [sleep_state_index state]] := by
          have := invoke_optional_snd sys PATH_PREPARE_TO_SLEEP [sleep_state_index state]
          rw [hopt] at this
          exact this
        rw [hopt] at hmem
        have hmem2 : Effect.invokeMethod PATH_SYSTEM_STATUS args ∈ tr2 := by
          cases out2 with
          | ok u =>
            simp only [obind_ok] at hmem
            rw [hval] at hmem
            simpa using hmem
          | err e => exact hmem
          | panicked m => exact hmem
          | diverges => exact hmem
        rw [htr2] at hmem2
        have := List.mem_singleton.1 hmem2
        simp only [Effect.invokeMethod.injEq] at this
        have hpath : PATH_SYSTEM_STATUS = PATH_PREPARE_TO_SLEEP := this.1
        exact absurd hpath (by decide)
      | err e => unfold prepare_sleep_state at hmem; simp [hstd] at hmem
      | panicked m => unfold prepare_sleep_state at hmem; simp [hstd] at hmem
      | diverges => unfold prepare_sleep_state at hmem; simp [hstd] at hmem

/-- System whose namespace holds `\_S0_ = Package { 1, 2 }` (no methods). -/
def c8_sys : Sys :=
  ⟨io_env, ⟨gas_pm1a_status, none, gas_pm1a_enable, none⟩,
   .ok gas_pm1a_control, .ok (some gas_pm1b_control),
   [("\\_S0_", .package [.integer 1, .integer 2])], []⟩

/-- System whose namespace holds `\_S5_ = Package { 5, 5 }` (no methods,
so `\_PTS` and `\_SI._SST` resolve to `ValueDoesNotExist`, which is
non-fatal). -/
def c8w_sys : Sys :=
  ⟨io_env, ⟨gas_pm1a_status, none, gas_pm1a_enable, none⟩,
   .ok gas_pm1a_control, .ok (some gas_pm1b_control),
   [("\\_S5_", .package [.integer 5, .integer 5])], []⟩

/-- C8 counterexample: with `\_S0_ = Package { 1, 2 }`,
`prepare_sleep_state(S0)` does not skip the `\_SI._SST` call and return
the sleep-type pair `(1, 2)` — it panics at the `todo!()` computing the
`_SST` argument, right after invoking `\_PTS`. -/
theorem prepare_sleep_state_s0_panics :
    sleep_type_data c8_sys .s0 = .ok (1, 2) ∧
    prepare_sleep_state c8_sys .s0 =
      (.panicked "todo", [.invokeMethod PATH_PREPARE_TO_SLEEP [0]]) ∧
    prepare_sleep_state c8_sys .s0 ≠ ((.ok (1, 2) : Outcome (Nat × Nat)),
      [.invokeMethod PATH_PREPARE_TO_SLEEP [0]]) :=
  ⟨rfl, rfl, by decide⟩

/-- C8 witness: on `c8w_sys`, `prepare_sleep_state(S5)` succeeds with
`(5, 5)` and its trace contains the `\_SI._SST` invocation with
argument 0. -/
theorem prepare_sleep_state_sst_witness :
    (prepare_sleep_state c8w_sys .s5).1 = .ok (5, 5) ∧
    Effect.invokeMethod PATH_SYSTEM_STATUS [0] ∈ (prepare_sleep_state c8w_sys .s5).2 :=
  ⟨rfl, (prepare_sleep_state_sst c8w_sys).1 (5, 5) rfl⟩

end AcpiSys
